import Mathlib

/-!
Shallow embedding of the row-indexing engine of the resizable grid
(`src/ResizableGrid/state/GridDataManager.ts`) and of the pagination logic of
its interaction controller (`src/ResizableGrid/state/useGridManager.ts`),
together with theorems settling the specification claims.

Modelling conventions:
* JavaScript dynamic scalar values are the inductive `Value`
  (string / number / null / undefined); machine numbers are `Int` plus an
  explicit NaN constructor (`JsNumber`).
* JavaScript `Map` objects (insertion ordered, unique keys) are association
  lists `List (String × α)`; `mapSet` replaces the first matching key in
  place (as `Map.set` does) and appends otherwise.
* `Array.prototype.sort(cmp)` is `List.mergeSort` with the boolean order
  `cmp a b ≤ 0`; ECMAScript requires a stable sort, and per the SortCompare
  specification a comparator result of NaN is treated as `+0`.
* `String.prototype.localeCompare` is modelled as code-point comparison and
  `toLowerCase` as ASCII lowering.
-/

/-! ## Definitions: the JavaScript value model, the engine state and
its operations, the controller pagination, and the concrete scenario
states used by witnesses and counterexamples. -/

/-- A JavaScript number restricted to the integers actually manipulated by the
grid engine, plus NaN. -/
inductive JsNumber where
  | nan : JsNumber
  | val : Int → JsNumber
deriving DecidableEq, Repr

/-- JavaScript subtraction on numbers: NaN propagates. -/
def jsSub : JsNumber → JsNumber → JsNumber
  | JsNumber.val a, JsNumber.val b => JsNumber.val (a - b)
  | _, _ => JsNumber.nan

/-- How `Array.prototype.sort` consumes a comparator result `r`: the pair is
kept in order when `r ≤ 0`; a NaN result is treated as `+0` (ECMA-262
SortCompare). -/
def jsCmpLe : JsNumber → Bool
  | JsNumber.nan => true
  | JsNumber.val n => n ≤ 0

/-- A JavaScript scalar value as stored in grid records. -/
inductive Value where
  | str : String → Value
  | num : Int → Value
  | null : Value
  | undef : Value
deriving DecidableEq, Repr

/-- JavaScript `String(v)` on the scalar values of the model. -/
def Value.jsToString : Value → String
  | Value.str s => s
  | Value.num n => toString n
  | Value.null => "null"
  | Value.undef => "undefined"

/-- JavaScript truthiness of a scalar value. -/
def Value.truthy : Value → Bool
  | Value.str s => s ≠ ""
  | Value.num n => n ≠ 0
  | Value.null => false
  | Value.undef => false

/-- JavaScript `a || b` on scalar values. -/
def jsOr (a b : Value) : Value := if a.truthy then a else b

/-- Strip leading and trailing whitespace from a character list. -/
def charsTrim (cs : List Char) : List Char :=
  ((cs.dropWhile Char.isWhitespace).reverse.dropWhile Char.isWhitespace).reverse

/-- Decimal digits to a natural number. -/
def digitsToNat (cs : List Char) : Nat :=
  cs.foldl (fun n c => n * 10 + (c.toNat - 48)) 0

/-- Parse an optionally signed run of decimal digits. -/
def charsToInt? : List Char → Option Int
  | [] => Option.none
  | '-' :: rest =>
    if rest ≠ [] && rest.all Char.isDigit then some (-(digitsToNat rest : Int)) else Option.none
  | '+' :: rest =>
    if rest ≠ [] && rest.all Char.isDigit then some (digitsToNat rest : Int) else Option.none
  | cs =>
    if cs.all Char.isDigit then some (digitsToNat cs : Int) else Option.none

/-- Model of JavaScript `Number(s)` on strings, restricted to the integer
literals the grid actually stores: optional sign and decimal digits; the empty
(or all-blank) string coerces to `0`; anything else is NaN. -/
def jsStringToNumber (s : String) : JsNumber :=
  let t := charsTrim s.data
  if t.isEmpty then JsNumber.val 0
  else
    match charsToInt? t with
    | some n => JsNumber.val n
    | Option.none => JsNumber.nan

/-- JavaScript `Number(v)` on scalar values. -/
def Value.toNumber : Value → JsNumber
  | Value.str s => jsStringToNumber s
  | Value.num n => JsNumber.val n
  | Value.null => JsNumber.val 0
  | Value.undef => JsNumber.nan

/-- Split a character list on `'-'` separators. -/
def splitOnDash : List Char → List (List Char)
  | [] => [[]]
  | c :: rest =>
    let r := splitOnDash rest
    if c = '-' then [] :: r
    else
      match r with
      | [] => [[c]]
      | g :: gs => (c :: g) :: gs

/-- Model of `new Date(v).getTime()`: numbers are epoch offsets, `null` is the
epoch, and strings are recognised only in ISO `YYYY-MM-DD` form (mapped to a
strictly monotone integer encoding); every other input is an Invalid Date,
whose `getTime()` is NaN. -/
def jsDateGetTime : Value → JsNumber
  | Value.num n => JsNumber.val n
  | Value.null => JsNumber.val 0
  | Value.undef => JsNumber.nan
  | Value.str s =>
    match splitOnDash s.data with
    | [y, m, d] =>
      if y.length = 4 && m.length = 2 && d.length = 2
          && y.all Char.isDigit && m.all Char.isDigit && d.all Char.isDigit then
        JsNumber.val (digitsToNat y * 10000 + digitsToNat m * 100 + digitsToNat d)
      else JsNumber.nan
    | _ => JsNumber.nan

/-- `needle` occurs at the start of `hay` (character lists). -/
def charsStartWith : List Char → List Char → Bool
  | [], _ => true
  | _ :: _, [] => false
  | c :: cs, d :: ds => c = d && charsStartWith cs ds

/-- `needle` occurs somewhere inside `hay` (character lists). -/
def charsContain (needle : List Char) : List Char → Bool
  | [] => needle.isEmpty
  | d :: ds => charsStartWith needle (d :: ds) || charsContain needle ds

/-- JavaScript `hay.includes(needle)`. -/
def jsIncludes (hay needle : String) : Bool :=
  charsContain needle.data hay.data

/-- JavaScript `hay.startsWith(needle)`. -/
def jsStartsWith (hay needle : String) : Bool :=
  charsStartWith needle.data hay.data

/-- JavaScript `hay.endsWith(needle)`. -/
def jsEndsWith (hay needle : String) : Bool :=
  charsStartWith needle.data.reverse hay.data.reverse

/-- JavaScript `s.toLowerCase()`, restricted to ASCII. -/
def jsToLowerCase (s : String) : String :=
  String.mk (s.data.map Char.toLower)

/-- Model of `a.localeCompare(b)` as code-point comparison (the engine runs in
a fixed locale; only the sign of the result is consumed). -/
def jsLocaleCompare (a b : String) : JsNumber :=
  if a < b then JsNumber.val (-1) else if b < a then JsNumber.val 1 else JsNumber.val 0

/-- JavaScript negation of a comparator result (for the descending branch). -/
def jsNegNum : JsNumber → JsNumber
  | JsNumber.nan => JsNumber.nan
  | JsNumber.val n => JsNumber.val (-n)

/-- JavaScript `a > b` on scalar values: string/string pairs compare
lexicographically, otherwise both sides coerce through `Number` and any NaN
makes the comparison false. -/
def jsGtB (a b : Value) : Bool :=
  match a, b with
  | Value.str x, Value.str y => y < x
  | _, _ =>
    match a.toNumber, b.toNumber with
    | JsNumber.val x, JsNumber.val y => y < x
    | _, _ => false

/-- JavaScript `a < b` on scalar values. -/
def jsLtB (a b : Value) : Bool :=
  match a, b with
  | Value.str x, Value.str y => x < y
  | _, _ =>
    match a.toNumber, b.toNumber with
    | JsNumber.val x, JsNumber.val y => x < y
    | _, _ => false

/-- `Map.prototype.get`, on the association-list model of a JS `Map`. -/
def mapGet? {α : Type} : List (String × α) → String → Option α
  | [], _ => Option.none
  | p :: rest, k => if p.1 = k then some p.2 else mapGet? rest k

/-- `Map.prototype.has`. -/
def mapHas {α : Type} (m : List (String × α)) (k : String) : Bool :=
  (mapGet? m k).isSome

/-- `Map.prototype.set`: replace the first entry with the key in place, append
a fresh entry otherwise (JS maps keep insertion order). -/
def mapSet {α : Type} : List (String × α) → String → α → List (String × α)
  | [], k, v => [(k, v)]
  | p :: rest, k, v => if p.1 = k then (k, v) :: rest else p :: mapSet rest k v

/-- `Map.prototype.delete` (dropping the entry with the key). -/
def mapDelete {α : Type} : List (String × α) → String → List (String × α)
  | [], _ => []
  | p :: rest, k => if p.1 = k then rest else p :: mapDelete rest k

/-- `DATE_COLUMNS` from the source. -/
def DATE_COLUMNS : List String := ["createdAt", "updatedAt", "date"]

/-- `SEARCHABLE_COLUMNS` from the source. -/
def SEARCHABLE_COLUMNS : List String := ["name", "description", "email", "notes", "title"]

/-- `NUMERIC_COLUMNS` from the source. -/
def NUMERIC_COLUMNS : List String := ["id", "amount", "price", "quantity"]

/-- A record (`RowData`): a JS object mapping column names to scalar values. -/
abbrev RowData := List (String × Value)

/-- JavaScript property read `row[col]` (absent properties are `undefined`). -/
def rowGet (row : RowData) (col : String) : Value :=
  (mapGet? row col).getD Value.undef

/-- JavaScript property write `row[col] = v`. -/
def rowSet (row : RowData) (col : String) (v : Value) : RowData :=
  mapSet row col v

/-- Filter operators (`FilterConfig['operator']`). -/
inductive FilterOp where
  | eq | neq | gt | lt | contains | starts | ends
deriving DecidableEq, Repr

/-- `FilterConfig` from the source. -/
structure FilterConfig where
  column : String
  value : Value
  operator : FilterOp
deriving DecidableEq, Repr

/-- Sort directions (`SortDirection`). -/
inductive SortDirection where
  | asc | desc | none
deriving DecidableEq, Repr

/-- `currentSort` state: `{ column: string | null; direction: SortDirection }`. -/
structure CurrentSort where
  column : Option String
  direction : SortDirection
deriving DecidableEq, Repr

/-- The private state of a `GridDataManager` instance. -/
structure GDM where
  idField : String
  rowMap : List (String × RowData)
  displayIndex : List String
  filteredIndex : List String
  searchIndex : List (String × String)
  sortValues : List (String × List (String × JsNumber))
  activeFilters : List FilterConfig
  currentSort : CurrentSort
deriving DecidableEq, Repr

/-- The snapshot returned by `getCurrentState()`. -/
structure GridState where
  filteredRows : List RowData
  totalRows : Nat
  filteredCount : Nat
  currentSort : CurrentSort
  activeFilters : List FilterConfig
deriving DecidableEq, Repr

/-- `buildSearchString`: lowercase join of the searchable column values
(`String(row[col] || '')`), separated by spaces. -/
def buildSearchString (row : RowData) : String :=
  String.mk (((SEARCHABLE_COLUMNS.map
    (fun col => (jsToLowerCase (jsOr (rowGet row col) (Value.str "")).jsToString).data)).intersperse
      [' ']).flatten)

/-- One `DATE_COLUMNS` step of `precomputeSortValues`. -/
def precomputeDateCol (sv : List (String × List (String × JsNumber))) (id : String)
    (row : RowData) (col : String) : List (String × List (String × JsNumber)) :=
  let sv := if mapHas sv col then sv else mapSet sv col []
  if (rowGet row col).truthy then
    mapSet sv col (mapSet ((mapGet? sv col).getD []) id (jsDateGetTime (rowGet row col)))
  else sv

/-- One `NUMERIC_COLUMNS` step of `precomputeSortValues` (`typeof` check plus
`Number` coercion, skipped when the result is NaN). -/
def precomputeNumCol (sv : List (String × List (String × JsNumber))) (id : String)
    (row : RowData) (col : String) : List (String × List (String × JsNumber)) :=
  let sv := if mapHas sv col then sv else mapSet sv col []
  let v := rowGet row col
  if v ≠ Value.undef ∧ v ≠ Value.null then
    match v.toNumber with
    | JsNumber.val n => mapSet sv col (mapSet ((mapGet? sv col).getD []) id (JsNumber.val n))
    | JsNumber.nan => sv
  else sv

/-- `precomputeSortValues(id, row)`. -/
def precomputeSortValues (sv : List (String × List (String × JsNumber))) (id : String)
    (row : RowData) : List (String × List (String × JsNumber)) :=
  NUMERIC_COLUMNS.foldl (fun sv col => precomputeNumCol sv id row col)
    (DATE_COLUMNS.foldl (fun sv col => precomputeDateCol sv id row col) sv)

/-- The id assigned to a record (`String(row[uniqueIdField])`). -/
def ctorId (uniqueIdField : String) (row : RowData) : String :=
  (rowGet row uniqueIdField).jsToString

/-- The per-record loop body of the `GridDataManager` constructor. -/
def ctorStep (uniqueIdField : String) (s : GDM) (row : RowData) : GDM :=
  let id := ctorId uniqueIdField row
  { s with
    rowMap := mapSet s.rowMap id row
    displayIndex := s.displayIndex ++ [id]
    searchIndex := mapSet s.searchIndex id (buildSearchString row)
    sortValues := precomputeSortValues s.sortValues id row }

/-- The empty engine state the constructor starts from. -/
def emptyGDM (uniqueIdField : String) : GDM :=
  { idField := uniqueIdField, rowMap := [], displayIndex := [], filteredIndex := [],
    searchIndex := [], sortValues := [], activeFilters := [],
    currentSort := ⟨Option.none, SortDirection.none⟩ }

/-- The `GridDataManager` constructor. -/
def initGDM (rows : List RowData) (uniqueIdField : String) : GDM :=
  let s := rows.foldl (ctorStep uniqueIdField) (emptyGDM uniqueIdField)
  { s with filteredIndex := s.displayIndex }

/-- The predicate one active filter applies to a row id inside
`applyCurrentFilters`. -/
def filterTest (rowMap : List (String × RowData)) (filter : FilterConfig) (id : String) : Bool :=
  let row := (mapGet? rowMap id).getD []
  let value := rowGet row filter.column
  match filter.operator with
  | FilterOp.eq => value = filter.value
  | FilterOp.neq => value ≠ filter.value
  | FilterOp.gt => jsGtB value filter.value
  | FilterOp.lt => jsLtB value filter.value
  | FilterOp.contains =>
    jsIncludes (jsToLowerCase value.jsToString) (jsToLowerCase filter.value.jsToString)
  | FilterOp.starts =>
    jsStartsWith (jsToLowerCase value.jsToString) (jsToLowerCase filter.value.jsToString)
  | FilterOp.ends =>
    jsEndsWith (jsToLowerCase value.jsToString) (jsToLowerCase filter.value.jsToString)

/-- `applyCurrentFilters()`: restart from the full display index and apply each
active column filter in sequence.  (The source's `skipSearch` parameter is
unused there and the stored search query does not exist, so the text search is
never reapplied.) -/
def applyCurrentFilters (s : GDM) : GDM :=
  { s with filteredIndex :=
      (s.activeFilters.foldl (fun acc fc => acc.filter (filterTest s.rowMap fc))
        s.displayIndex) }

/-- The comparator of `sortBy` for a non-`none` direction, as the number the JS
comparator returns. -/
def sortCompare (s : GDM) (column : String) (direction : SortDirection)
    (idA idB : String) : JsNumber :=
  match mapGet? s.sortValues column with
  | some cache =>
    let valueA := (mapGet? cache idA).getD (JsNumber.val 0)
    let valueB := (mapGet? cache idB).getD (JsNumber.val 0)
    if direction = SortDirection.asc then jsSub valueA valueB else jsSub valueB valueA
  | Option.none =>
    let rowA := (mapGet? s.rowMap idA).getD []
    let rowB := (mapGet? s.rowMap idB).getD []
    let valueA := rowGet rowA column
    let valueB := rowGet rowB column
    match valueA, valueB with
    | Value.num a, Value.num b =>
      if direction = SortDirection.asc then JsNumber.val (a - b) else JsNumber.val (b - a)
    | _, _ =>
      let strA := (jsOr valueA (Value.str "")).jsToString
      let strB := (jsOr valueB (Value.str "")).jsToString
      let result := jsLocaleCompare strA strB
      if direction = SortDirection.asc then result else jsNegNum result

/-- The boolean order `Array.prototype.sort` derives from the column
comparator. -/
def colLe (s : GDM) (column : String) (direction : SortDirection) (a b : String) : Bool :=
  jsCmpLe (sortCompare s column direction a b)

/-- The boolean order of the `direction === 'none'` branch of `sortBy`
(`localeCompare` on the stringified identifier-field values). -/
def idLe (s : GDM) (a b : String) : Bool :=
  jsCmpLe (jsLocaleCompare
    (rowGet ((mapGet? s.rowMap a).getD []) s.idField).jsToString
    (rowGet ((mapGet? s.rowMap b).getD []) s.idField).jsToString)

/-- `sortBy(column, direction)` (state effect). -/
def GDM.sortBy (s : GDM) (column : String) (direction : SortDirection) : GDM :=
  let s := { s with currentSort := ⟨some column, direction⟩ }
  let s :=
    if direction = SortDirection.none then
      { s with displayIndex := s.displayIndex.mergeSort (idLe s) }
    else
      { s with displayIndex := s.displayIndex.mergeSort (colLe s column direction) }
  applyCurrentFilters s

/-- `getCurrentState()`. -/
def getCurrentState (s : GDM) : GridState :=
  { filteredRows := s.filteredIndex.map (fun id => (mapGet? s.rowMap id).getD [])
    totalRows := s.rowMap.length
    filteredCount := s.filteredIndex.length
    currentSort := s.currentSort
    activeFilters := s.activeFilters }

/-- The `SEARCHABLE_COLUMNS` refresh step of `updateCell`. -/
def refreshSearchIdx (s : GDM) (id column : String) (row : RowData) : GDM :=
  if column ∈ SEARCHABLE_COLUMNS then
    { s with searchIndex := mapSet s.searchIndex id (buildSearchString row) }
  else s

/-- The sort-value refresh step of `updateCell`: a truthy value on a date
column is always re-parsed (NaN for an unparsable date); a numeric column is
updated only when `Number(value)` is not NaN. -/
def refreshSortValue (s : GDM) (id column : String) (value : Value) : GDM :=
  if mapHas s.sortValues column then
    if column ∈ DATE_COLUMNS ∧ value.truthy then
      { s with sortValues :=
          (mapSet s.sortValues column
            (mapSet ((mapGet? s.sortValues column).getD []) id (jsDateGetTime value))) }
    else if column ∈ NUMERIC_COLUMNS ∧ value ≠ Value.null ∧ value ≠ Value.undef then
      match value.toNumber with
      | JsNumber.val n =>
        { s with sortValues :=
            (mapSet s.sortValues column
              (mapSet ((mapGet? s.sortValues column).getD []) id (JsNumber.val n))) }
      | JsNumber.nan => s
    else s
  else s

/-- The conditional re-sort step of `updateCell` (`currentSort.column ===
column && direction !== 'none'`). -/
def resortIfEdited (s : GDM) (column : String) : GDM :=
  if s.currentSort.column = some column ∧ s.currentSort.direction ≠ SortDirection.none then
    s.sortBy column s.currentSort.direction
  else s

/-- `updateCell(id, column, value)`: `none` when the id is unknown, otherwise
the mutated state together with the returned snapshot. -/
def GDM.updateCell (s : GDM) (id column : String) (value : Value) : GDM × Option GridState :=
  match mapGet? s.rowMap id with
  | Option.none => (s, Option.none)
  | some row =>
    let row := rowSet row column value
    let s := { s with rowMap := mapSet s.rowMap id row }
    let s := refreshSearchIdx s id column row
    let s := refreshSortValue s id column value
    let s := resortIfEdited s column
    let s := applyCurrentFilters s
    (s, some (getCurrentState s))

/-- The conditional re-sort step of `addRow` (`this.currentSort.column &&
direction !== 'none'`; a null or empty-string column is falsy). -/
def resortIfActive (s : GDM) : GDM :=
  match s.currentSort.column with
  | some col =>
    if col ≠ "" ∧ s.currentSort.direction ≠ SortDirection.none then
      s.sortBy col s.currentSort.direction
    else s
  | Option.none => s

/-- `addRow(row)`: `none` (duplicate key) when the identifier exists. -/
def GDM.addRow (s : GDM) (row : RowData) : GDM × Option GridState :=
  let id := (rowGet row s.idField).jsToString
  if mapHas s.rowMap id then (s, Option.none)
  else
    let s := { s with
      rowMap := mapSet s.rowMap id row
      displayIndex := s.displayIndex ++ [id]
      searchIndex := mapSet s.searchIndex id (buildSearchString row)
      sortValues := precomputeSortValues s.sortValues id row }
    let s := resortIfActive s
    let s := applyCurrentFilters s
    (s, some (getCurrentState s))

/-- `deleteRow(id)`: `none` (not found) when the identifier is absent. -/
def GDM.deleteRow (s : GDM) (id : String) : GDM × Option GridState :=
  if mapHas s.rowMap id then
    let s := { s with
      rowMap := mapDelete s.rowMap id
      displayIndex := s.displayIndex.filter (fun rowId => rowId ≠ id)
      filteredIndex := s.filteredIndex.filter (fun rowId => rowId ≠ id)
      searchIndex := mapDelete s.searchIndex id
      sortValues := s.sortValues.map (fun p => (p.1, mapDelete p.2 id)) }
    (s, some (getCurrentState s))
  else (s, Option.none)

/-- `filterBySearch(query)` (state effect). -/
def GDM.filterBySearch (s : GDM) (query : String) : GDM :=
  if query = "" then applyCurrentFilters s
  else
    let lowerQuery := jsToLowerCase query
    { s with filteredIndex :=
        (s.displayIndex.filter (fun id =>
          match mapGet? s.searchIndex id with
          | some str => jsIncludes str lowerQuery
          | Option.none => false)) }

/-- `addFilter(filter)`: replace-by-column, then reapply all filters. -/
def GDM.addFilter (s : GDM) (fc : FilterConfig) : GDM :=
  applyCurrentFilters
    { s with activeFilters := s.activeFilters.filter (fun f => f.column ≠ fc.column) ++ [fc] }

/-- `removeFilter(column)`. -/
def GDM.removeFilter (s : GDM) (column : String) : GDM :=
  applyCurrentFilters
    { s with activeFilters := s.activeFilters.filter (fun f => f.column ≠ column) }

/-- `clearFilters()`. -/
def GDM.clearFilters (s : GDM) : GDM :=
  { s with activeFilters := [], filteredIndex := s.displayIndex }

/-- The public mutating operations of the engine, for statements about
arbitrary operation sequences. -/
inductive GridOp where
  | sortBy (column : String) (direction : SortDirection)
  | updateCell (id column : String) (value : Value)
  | addRow (row : RowData)
  | deleteRow (id : String)
  | filterBySearch (query : String)
  | addFilter (fc : FilterConfig)
  | removeFilter (column : String)
  | clearFilters

/-- Apply one public operation (keeping the state; failed operations leave the
state untouched, as in the source). -/
def GDM.applyOp (s : GDM) : GridOp → GDM
  | GridOp.sortBy column direction => s.sortBy column direction
  | GridOp.updateCell id column value => (s.updateCell id column value).1
  | GridOp.addRow row => (s.addRow row).1
  | GridOp.deleteRow id => (s.deleteRow id).1
  | GridOp.filterBySearch query => s.filterBySearch query
  | GridOp.addFilter fc => s.addFilter fc
  | GridOp.removeFilter column => s.removeFilter column
  | GridOp.clearFilters => s.clearFilters

/-- Run a sequence of public operations. -/
def GDM.runOps (s : GDM) (ops : List GridOp) : GDM :=
  ops.foldl GDM.applyOp s

/-- `Math.ceil(filteredCount / pageSize) - 1`, the last valid page index
(assumes a positive page size, as the UI provides). -/
def jsMaxPage (filteredCount pageSize : Nat) : Int :=
  ((filteredCount + pageSize - 1) / pageSize : Nat) - 1

/-- `goToPage(page)`: the clamped page the controller stores. -/
def goToPage (filteredCount pageSize : Nat) (page : Int) : Int :=
  max 0 (min page (jsMaxPage filteredCount pageSize))

/-- `nextPage()`: the page stored after advancing from `prev`. -/
def nextPage (filteredCount pageSize : Nat) (prev : Int) : Int :=
  min (prev + 1) (jsMaxPage filteredCount pageSize)

/-- `prevPage()`: the page stored after stepping back from `prev`. -/
def prevPage (prev : Int) : Int :=
  max (prev - 1) 0

/-- `setPageSize(size)`: the current page after the bounds check against the
new page size. -/
def handleSetPageSize (filteredCount size : Nat) (currentPage : Int) : Int :=
  if currentPage > jsMaxPage filteredCount size then max 0 (jsMaxPage filteredCount size)
  else currentPage

/-- Index consistency: the display index has no duplicates and lists exactly
the keys of the row store, and the filtered index is contained in the display
index. -/
def EngineInv (s : GDM) : Prop :=
  s.displayIndex.Nodup ∧
  (∀ id, id ∈ s.displayIndex ↔ mapHas s.rowMap id = true) ∧
  (∀ id, id ∈ s.filteredIndex → id ∈ s.displayIndex)

/-- `EngineInv` strengthened with uniqueness of the row-store keys (automatic
for a JS `Map`, explicit for the association-list model). -/
def InvAux (s : GDM) : Prop :=
  (s.rowMap.map Prod.fst).Nodup ∧ EngineInv s

/-- A demo record with id `"1"`. -/
def demoRow1 : RowData :=
  [("id", Value.str "1"), ("name", Value.str "apple"), ("amount", Value.num 10)]

/-- A demo record with id `"2"`. -/
def demoRow2 : RowData :=
  [("id", Value.str "2"), ("name", Value.str "banana"), ("amount", Value.num 5)]

/-- A freshly constructed engine over the two demo records. -/
def demoState : GDM := initGDM [demoRow1, demoRow2] "id"

/-- The stringified identifier-field value the `none` branch of `sortBy`
compares (`String(row[idField])` of the row resolved through the store). -/
def strIdValue (s : GDM) (id : String) : String :=
  (rowGet ((mapGet? s.rowMap id).getD []) s.idField).jsToString

/-- The comparison key the specification attributes to a cached sort column:
the cached numeric value of the row, a missing cache entry counting as 0. -/
def specSortKey (cache : List (String × JsNumber)) (id : String) : Int :=
  match mapGet? cache id with
  | some (JsNumber.val n) => n
  | some JsNumber.nan => 0
  | Option.none => 0

/-- A record with no `amount` value, so its sort key for `amount` is missing. -/
def c8Row3 : RowData := [("id", Value.str "3"), ("name", Value.str "cherry")]

/-- Engine over three records, the third lacking an `amount`. -/
def c8State : GDM := initGDM [demoRow1, demoRow2, c8Row3] "id"

/-- The `amount` cache built for `c8State` (no entry for id `"3"`). -/
def c8AmountCache : List (String × JsNumber) :=
  [("1", JsNumber.val 10), ("2", JsNumber.val 5)]

/-- Record 1 of the stability scenario (`amount` 1, `price` 5). -/
def c6Row1 : RowData :=
  [("id", Value.str "1"), ("amount", Value.num 1), ("price", Value.num 5)]

/-- Record 2 of the stability scenario (`amount` 2, `price` 5). -/
def c6Row2 : RowData :=
  [("id", Value.str "2"), ("amount", Value.num 2), ("price", Value.num 5)]

/-- Engine freshly constructed over the stability scenario records. -/
def c6Start : GDM := initGDM [c6Row1, c6Row2] "id"

/-- The scenario state after `sortBy('amount','desc')`. -/
def c6AfterAmount : GDM := c6Start.sortBy "amount" SortDirection.desc

/-- The scenario state after a further `sortBy('price','asc')` (both rows tie
on `price`). -/
def c6AfterPrice : GDM := c6AfterAmount.sortBy "price" SortDirection.asc

/-- The `price` cache of the stability scenario (both rows cached at 5). -/
def c6PriceCache : List (String × JsNumber) :=
  [("1", JsNumber.val 5), ("2", JsNumber.val 5)]

/-- The record of the date scenario: id `"1"`, a parsable ISO date. -/
def c7Row : RowData := [("id", Value.str "1"), ("date", Value.str "2020-01-01")]

/-- Engine over the date scenario record. -/
def c7State : GDM := initGDM [c7Row] "id"

/-- The date scenario after `updateCell('1','date','garbage')`. -/
def c7After : GDM × Option GridState := c7State.updateCell "1" "date" (Value.str "garbage")

/-- The demo state after `filterBySearch('banana')`. -/
def c1Searched : GDM := demoState.filterBySearch "banana"

/-- …and after a subsequent `addFilter({column:'amount', operator:'gt',
value:6})`. -/
def c1AfterFilter : GDM := c1Searched.addFilter ⟨"amount", Value.num 6, FilterOp.gt⟩

/-- The demo state after `addFilter({column:'amount', operator:'gt', value:6})`. -/
def c2Filtered : GDM := demoState.addFilter ⟨"amount", Value.num 6, FilterOp.gt⟩

/-- …and after a subsequent `filterBySearch('banana')`. -/
def c2Searched : GDM := c2Filtered.filterBySearch "banana"

/-! ## Theorems -/

theorem mapHas_cons {α : Type} (p : String × α) (rest : List (String × α)) (k : String) :
    mapHas (p :: rest) k = (decide (p.1 = k) || mapHas rest k) := by
  by_cases h : p.1 = k <;> simp [mapHas, mapGet?, h]

theorem mapGet?_mapSet_self {α : Type} (m : List (String × α)) (k : String) (v : α) :
    mapGet? (mapSet m k v) k = some v := by
  induction m with
  | nil => simp [mapSet, mapGet?]
  | cons p rest ih =>
    by_cases h : p.1 = k
    · simp [mapSet, h, mapGet?]
    · simp [mapSet, h, mapGet?, ih]

theorem mapGet?_mapSet_ne {α : Type} (m : List (String × α)) (k k' : String) (v : α)
    (h : k' ≠ k) : mapGet? (mapSet m k v) k' = mapGet? m k' := by
  induction m with
  | nil => simp [mapSet, mapGet?, Ne.symm h]
  | cons p rest ih =>
    by_cases hp : p.1 = k
    · subst hp
      simp [mapSet, mapGet?, Ne.symm h]
    · by_cases hp' : p.1 = k'
      · simp [mapSet, hp, mapGet?, hp', h]
      · simp [mapSet, hp, mapGet?, hp', ih, h]

theorem mapHas_mapSet {α : Type} (m : List (String × α)) (k k' : String) (v : α) :
    mapHas (mapSet m k v) k' = (decide (k' = k) || mapHas m k') := by
  by_cases h : k' = k
  · subst h; simp [mapHas, mapGet?_mapSet_self]
  · simp [mapHas, mapGet?_mapSet_ne m k k' v h, h]

theorem mapHas_mem_keys {α : Type} (m : List (String × α)) (k : String) :
    mapHas m k = true ↔ k ∈ m.map Prod.fst := by
  induction m with
  | nil => simp [mapHas, mapGet?]
  | cons p rest ih =>
    by_cases h : p.1 = k
    · simp [mapHas_cons, h]
    · simp only [mapHas_cons, h, decide_False, Bool.false_or, List.map_cons, List.mem_cons]
      rw [ih]
      exact ⟨Or.inr, fun hh => hh.elim (fun hh' => absurd hh'.symm h) id⟩

theorem keys_mapSet_of_has {α : Type} (m : List (String × α)) (k : String) (v : α)
    (h : mapHas m k = true) : (mapSet m k v).map Prod.fst = m.map Prod.fst := by
  induction m with
  | nil => simp [mapHas, mapGet?] at h
  | cons p rest ih =>
    by_cases hp : p.1 = k
    · simp [mapSet, hp]
    · have h' : mapHas rest k = true := by simpa [mapHas_cons, hp] using h
      simp [mapSet, hp, ih h']

theorem keys_mapSet_of_not {α : Type} (m : List (String × α)) (k : String) (v : α)
    (h : mapHas m k = false) : (mapSet m k v).map Prod.fst = m.map Prod.fst ++ [k] := by
  induction m with
  | nil => simp [mapSet]
  | cons p rest ih =>
    by_cases hp : p.1 = k
    · simp [mapHas_cons, hp] at h
    · have h' : mapHas rest k = false := by simpa [mapHas_cons, hp] using h
      simp [mapSet, hp, ih h']

theorem keys_mapSet_nodup {α : Type} (m : List (String × α)) (k : String) (v : α)
    (h : (m.map Prod.fst).Nodup) : ((mapSet m k v).map Prod.fst).Nodup := by
  cases hh : mapHas m k
  · rw [keys_mapSet_of_not m k v hh]
    have hk : k ∉ m.map Prod.fst := fun hmem => by
      rw [← mapHas_mem_keys] at hmem; rw [hmem] at hh; cases hh
    simp [List.nodup_append, h, hk]
  · rwa [keys_mapSet_of_has m k v hh]

theorem keys_mapDelete_sublist {α : Type} (m : List (String × α)) (k : String) :
    List.Sublist ((mapDelete m k).map Prod.fst) (m.map Prod.fst) := by
  induction m with
  | nil => simp [mapDelete]
  | cons p rest ih =>
    by_cases hp : p.1 = k
    · simp only [mapDelete, if_pos hp, List.map_cons]
      exact List.sublist_cons_self _ _
    · simp only [mapDelete, if_neg hp, List.map_cons]
      exact ih.cons₂ _

theorem keys_mapDelete_nodup {α : Type} (m : List (String × α)) (k : String)
    (h : (m.map Prod.fst).Nodup) : ((mapDelete m k).map Prod.fst).Nodup :=
  h.sublist (keys_mapDelete_sublist m k)

theorem mapHas_mapDelete {α : Type} (m : List (String × α)) (k k' : String)
    (hnd : (m.map Prod.fst).Nodup) :
    mapHas (mapDelete m k) k' = (decide (k' ≠ k) && mapHas m k') := by
  induction m with
  | nil => simp [mapDelete, mapHas, mapGet?]
  | cons p rest ih =>
    simp only [List.map_cons, List.nodup_cons] at hnd
    by_cases hp : p.1 = k
    · subst hp
      rw [mapDelete, if_pos rfl]
      by_cases hk : k' = p.1
      · subst hk
        have hres : mapHas rest p.1 = false := by
          cases hres : mapHas rest p.1
          · rfl
          · exact absurd ((mapHas_mem_keys rest p.1).mp hres) hnd.1
        simp [hres]
      · simp [mapHas_cons, hk, Ne.symm hk]
    · rw [mapDelete, if_neg hp]
      by_cases hk : p.1 = k'
      · subst hk
        simp [mapHas_cons, hp]
      · simp [mapHas_cons, hk, ih hnd.2]

theorem foldl_filter_sublist {β : Type} (fs : List β) (p : β → String → Bool)
    (l : List String) :
    List.Sublist (fs.foldl (fun acc f => acc.filter (p f)) l) l := by
  induction fs generalizing l with
  | nil => exact List.Sublist.refl l
  | cons f fs ih => exact (ih (l.filter (p f))).trans (List.filter_sublist l)

theorem invAux_applyCurrentFilters (s : GDM)
    (h0 : (s.rowMap.map Prod.fst).Nodup)
    (h1 : s.displayIndex.Nodup)
    (h2 : ∀ id, id ∈ s.displayIndex ↔ mapHas s.rowMap id = true) :
    InvAux (applyCurrentFilters s) := by
  refine ⟨h0, h1, h2, fun id hid => ?_⟩
  exact (foldl_filter_sublist s.activeFilters (fun fc => filterTest s.rowMap fc)
    s.displayIndex).subset hid

theorem invAux_applyCurrentFilters' (s : GDM) (h : InvAux s) :
    InvAux (applyCurrentFilters s) :=
  invAux_applyCurrentFilters s h.1 h.2.1 h.2.2.1

theorem invAux_sortBy (s : GDM) (c : String) (d : SortDirection) (h : InvAux s) :
    InvAux (s.sortBy c d) := by
  obtain ⟨h0, h1, h2, _⟩ := h
  by_cases hd : d = SortDirection.none <;>
    · simp only [GDM.sortBy, hd, if_true, if_false, reduceIte]
      exact invAux_applyCurrentFilters _ h0
        ((List.mergeSort_perm _ _).nodup_iff.mpr h1)
        (fun id => by simpa using h2 id)

theorem invAux_resortIfEdited (s : GDM) (column : String) (h : InvAux s) :
    InvAux (resortIfEdited s column) := by
  unfold resortIfEdited
  split
  · exact invAux_sortBy _ _ _ h
  · exact h

theorem invAux_resortIfActive (s : GDM) (h : InvAux s) : InvAux (resortIfActive s) := by
  unfold resortIfActive
  split
  · split
    · exact invAux_sortBy _ _ _ h
    · exact h
  · exact h

theorem invAux_congr (s s' : GDM)
    (hrm : s'.rowMap = s.rowMap) (hd : s'.displayIndex = s.displayIndex)
    (hf : s'.filteredIndex = s.filteredIndex) (h : InvAux s) : InvAux s' := by
  unfold InvAux EngineInv at h ⊢
  rw [hrm, hd, hf]
  exact h

theorem refreshSearchIdx_rowMap (s : GDM) (id column : String) (row : RowData) :
    (refreshSearchIdx s id column row).rowMap = s.rowMap := by
  unfold refreshSearchIdx; split <;> rfl

theorem refreshSearchIdx_displayIndex (s : GDM) (id column : String) (row : RowData) :
    (refreshSearchIdx s id column row).displayIndex = s.displayIndex := by
  unfold refreshSearchIdx; split <;> rfl

theorem refreshSearchIdx_filteredIndex (s : GDM) (id column : String) (row : RowData) :
    (refreshSearchIdx s id column row).filteredIndex = s.filteredIndex := by
  unfold refreshSearchIdx; split <;> rfl

theorem refreshSortValue_rowMap (s : GDM) (id column : String) (value : Value) :
    (refreshSortValue s id column value).rowMap = s.rowMap := by
  unfold refreshSortValue
  split
  · split
    · rfl
    · split
      · split <;> rfl
      · rfl
  · rfl

theorem refreshSortValue_displayIndex (s : GDM) (id column : String) (value : Value) :
    (refreshSortValue s id column value).displayIndex = s.displayIndex := by
  unfold refreshSortValue
  split
  · split
    · rfl
    · split
      · split <;> rfl
      · rfl
  · rfl

theorem refreshSortValue_filteredIndex (s : GDM) (id column : String) (value : Value) :
    (refreshSortValue s id column value).filteredIndex = s.filteredIndex := by
  unfold refreshSortValue
  split
  · split
    · rfl
    · split
      · split <;> rfl
      · rfl
  · rfl

theorem invAux_updateCell (s : GDM) (id column : String) (v : Value) (h : InvAux s) :
    InvAux (s.updateCell id column v).1 := by
  obtain ⟨h0, h1, h2, h3⟩ := h
  unfold GDM.updateCell
  cases hg : mapGet? s.rowMap id with
  | none => exact ⟨h0, h1, h2, h3⟩
  | some row =>
    have hhas : mapHas s.rowMap id = true := by simp [mapHas, hg]
    set row' := rowSet row column v with hrow'
    set s₁ : GDM := { s with rowMap := mapSet s.rowMap id row' } with hs₁
    have hkeys : ∀ k, mapHas s₁.rowMap k = mapHas s.rowMap k := by
      intro k
      show mapHas (mapSet s.rowMap id row') k = mapHas s.rowMap k
      rw [mapHas_mapSet]
      by_cases hk : k = id
      · subst hk; simp [hhas]
      · simp [hk]
    have hinv₁ : InvAux s₁ := by
      refine ⟨?_, h1, fun i => (hkeys i) ▸ h2 i, h3⟩
      show ((mapSet s.rowMap id row').map Prod.fst).Nodup
      exact keys_mapSet_nodup _ _ _ h0
    have hinv₂ : InvAux (refreshSearchIdx s₁ id column row') :=
      invAux_congr _ _ (refreshSearchIdx_rowMap ..) (refreshSearchIdx_displayIndex ..)
        (refreshSearchIdx_filteredIndex ..) hinv₁
    have hinv₃ : InvAux (refreshSortValue (refreshSearchIdx s₁ id column row') id column v) :=
      invAux_congr _ _ (refreshSortValue_rowMap ..) (refreshSortValue_displayIndex ..)
        (refreshSortValue_filteredIndex ..) hinv₂
    exact invAux_applyCurrentFilters' _ (invAux_resortIfEdited _ _ hinv₃)

theorem invAux_addRow (s : GDM) (row : RowData) (h : InvAux s) :
    InvAux (s.addRow row).1 := by
  obtain ⟨h0, h1, h2, h3⟩ := h
  unfold GDM.addRow
  set id := (rowGet row s.idField).jsToString with hid
  cases hhas : mapHas s.rowMap id with
  | true => simpa [hhas] using ⟨h0, h1, h2, h3⟩
  | false =>
    simp only [hhas, Bool.false_eq_true, if_false, reduceIte]
    have hnotmem : id ∉ s.displayIndex := fun hmem => by
      rw [(h2 id)] at hmem; rw [hmem] at hhas; cases hhas
    set s₁ : GDM := { s with
      rowMap := mapSet s.rowMap id row
      displayIndex := s.displayIndex ++ [id]
      searchIndex := mapSet s.searchIndex id (buildSearchString row)
      sortValues := precomputeSortValues s.sortValues id row } with hs₁
    have hinv₁ : InvAux s₁ := by
      refine ⟨?_, ?_, ?_, ?_⟩
      · show ((mapSet s.rowMap id row).map Prod.fst).Nodup
        exact keys_mapSet_nodup _ _ _ h0
      · show (s.displayIndex ++ [id]).Nodup
        simp [List.nodup_append, h1, hnotmem]
      · intro i
        show i ∈ s.displayIndex ++ [id] ↔ mapHas (mapSet s.rowMap id row) i = true
        rw [mapHas_mapSet]
        by_cases hk : i = id
        · subst hk; simp
        · simp [hk, h2 i]
      · intro i hi
        show i ∈ s.displayIndex ++ [id]
        exact List.mem_append_left _ (h3 i hi)
    exact invAux_applyCurrentFilters' _ (invAux_resortIfActive _ hinv₁)

theorem invAux_deleteRow (s : GDM) (id : String) (h : InvAux s) :
    InvAux (s.deleteRow id).1 := by
  obtain ⟨h0, h1, h2, h3⟩ := h
  unfold GDM.deleteRow
  cases hhas : mapHas s.rowMap id with
  | false => exact ⟨h0, h1, h2, h3⟩
  | true =>
    simp only [hhas, if_true, reduceIte]
    refine ⟨?_, ?_, ?_, ?_⟩
    · exact keys_mapDelete_nodup _ _ h0
    · exact h1.filter _
    · intro i
      show i ∈ s.displayIndex.filter (fun rowId => rowId ≠ id) ↔
        mapHas (mapDelete s.rowMap id) i = true
      rw [mapHas_mapDelete _ _ _ h0]
      simp only [List.mem_filter, decide_eq_true_eq, Bool.and_eq_true]
      rw [h2 i]
      tauto
    · intro i hi
      simp only [List.mem_filter, decide_eq_true_eq] at hi ⊢
      exact ⟨h3 i hi.1, hi.2⟩

theorem invAux_filterBySearch (s : GDM) (query : String) (h : InvAux s) :
    InvAux (s.filterBySearch query) := by
  obtain ⟨h0, h1, h2, h3⟩ := h
  unfold GDM.filterBySearch
  split
  · exact invAux_applyCurrentFilters' _ ⟨h0, h1, h2, h3⟩
  · exact ⟨h0, h1, h2, fun i hi => (List.filter_sublist _).subset hi⟩

theorem invAux_addFilter (s : GDM) (fc : FilterConfig) (h : InvAux s) :
    InvAux (s.addFilter fc) :=
  invAux_applyCurrentFilters _ h.1 h.2.1 h.2.2.1

theorem invAux_removeFilter (s : GDM) (column : String) (h : InvAux s) :
    InvAux (s.removeFilter column) :=
  invAux_applyCurrentFilters _ h.1 h.2.1 h.2.2.1

theorem invAux_clearFilters (s : GDM) (h : InvAux s) : InvAux s.clearFilters := by
  obtain ⟨h0, h1, h2, _⟩ := h
  exact ⟨h0, h1, h2, fun i hi => hi⟩

theorem invAux_applyOp (s : GDM) (op : GridOp) (h : InvAux s) : InvAux (s.applyOp op) := by
  cases op with
  | sortBy column direction => exact invAux_sortBy s column direction h
  | updateCell id column value => exact invAux_updateCell s id column value h
  | addRow row => exact invAux_addRow s row h
  | deleteRow id => exact invAux_deleteRow s id h
  | filterBySearch query => exact invAux_filterBySearch s query h
  | addFilter fc => exact invAux_addFilter s fc h
  | removeFilter column => exact invAux_removeFilter s column h
  | clearFilters => exact invAux_clearFilters s h

theorem invAux_runOps (s : GDM) (ops : List GridOp) (h : InvAux s) :
    InvAux (s.runOps ops) := by
  induction ops generalizing s with
  | nil => exact h
  | cons op ops ih => exact ih _ (invAux_applyOp s op h)

theorem ctorFold_displayIndex (uniqueIdField : String) (rows : List RowData) :
    ∀ s : GDM, (rows.foldl (ctorStep uniqueIdField) s).displayIndex =
      s.displayIndex ++ rows.map (ctorId uniqueIdField) := by
  induction rows with
  | nil => intro s; simp
  | cons r rows ih =>
    intro s
    simp only [List.foldl_cons, List.map_cons]
    rw [ih]
    simp [ctorStep]

theorem ctorFold_rowMap_has (uniqueIdField : String) (rows : List RowData) (k : String) :
    ∀ s : GDM, (mapHas (rows.foldl (ctorStep uniqueIdField) s).rowMap k = true ↔
      (mapHas s.rowMap k = true ∨ k ∈ rows.map (ctorId uniqueIdField))) := by
  induction rows with
  | nil => intro s; simp
  | cons r rows ih =>
    intro s
    simp only [List.foldl_cons, List.map_cons, List.mem_cons]
    rw [ih]
    show mapHas (mapSet s.rowMap (ctorId uniqueIdField r) r) k = true ∨ _ ↔ _
    rw [mapHas_mapSet]
    constructor
    · rintro (hk | hk)
      · rcases Bool.or_eq_true_iff.mp hk with hk' | hk'
        · exact Or.inr (Or.inl (by simpa using hk'))
        · exact Or.inl hk'
      · exact Or.inr (Or.inr hk)
    · rintro (hk | hk | hk)
      · exact Or.inl (by simp [hk])
      · exact Or.inl (by simp [hk])
      · exact Or.inr hk

theorem ctorFold_rowMap_keys_nodup (uniqueIdField : String) (rows : List RowData) :
    ∀ s : GDM, (s.rowMap.map Prod.fst).Nodup →
      ((rows.foldl (ctorStep uniqueIdField) s).rowMap.map Prod.fst).Nodup := by
  induction rows with
  | nil => intro s hs; exact hs
  | cons r rows ih =>
    intro s hs
    simp only [List.foldl_cons]
    exact ih _ (keys_mapSet_nodup _ _ _ hs)

theorem init_displayIndex (rows : List RowData) (uniqueIdField : String) :
    (initGDM rows uniqueIdField).displayIndex = rows.map (ctorId uniqueIdField) := by
  show (rows.foldl (ctorStep uniqueIdField) (emptyGDM uniqueIdField)).displayIndex = _
  rw [ctorFold_displayIndex]
  rfl

theorem init_rowMap_has (rows : List RowData) (uniqueIdField : String) (k : String) :
    mapHas (initGDM rows uniqueIdField).rowMap k = true ↔
      k ∈ rows.map (ctorId uniqueIdField) := by
  show mapHas (rows.foldl (ctorStep uniqueIdField) (emptyGDM uniqueIdField)).rowMap k = true ↔ _
  rw [ctorFold_rowMap_has]
  simp [emptyGDM, mapHas, mapGet?]

theorem init_filteredIndex (rows : List RowData) (uniqueIdField : String) :
    (initGDM rows uniqueIdField).filteredIndex = (initGDM rows uniqueIdField).displayIndex :=
  rfl

theorem invAux_init (rows : List RowData) (uniqueIdField : String)
    (hids : (rows.map (ctorId uniqueIdField)).Nodup) :
    InvAux (initGDM rows uniqueIdField) := by
  refine ⟨?_, ?_, ?_, ?_⟩
  · show ((rows.foldl (ctorStep uniqueIdField) (emptyGDM uniqueIdField)).rowMap.map
      Prod.fst).Nodup
    exact ctorFold_rowMap_keys_nodup uniqueIdField rows _ (by simp [emptyGDM])
  · rw [init_displayIndex]; exact hids
  · intro i
    rw [init_displayIndex]
    rw [← init_rowMap_has rows uniqueIdField i]
  · intro i hi
    rw [init_filteredIndex] at hi
    exact hi

theorem applyCurrentFilters_rowMap (s : GDM) : (applyCurrentFilters s).rowMap = s.rowMap := rfl

theorem sortBy_rowMap (s : GDM) (c : String) (d : SortDirection) :
    (s.sortBy c d).rowMap = s.rowMap := by
  unfold GDM.sortBy
  rw [applyCurrentFilters_rowMap]
  split <;> rfl

theorem resortIfEdited_rowMap (s : GDM) (column : String) :
    (resortIfEdited s column).rowMap = s.rowMap := by
  unfold resortIfEdited
  split
  · rw [sortBy_rowMap]
  · rfl

theorem resortIfActive_rowMap (s : GDM) : (resortIfActive s).rowMap = s.rowMap := by
  unfold resortIfActive
  split
  · split
    · rw [sortBy_rowMap]
    · rfl
  · rfl

/-- C3: after any sequence of public operations from construction, the
filtered index is contained in the display index, the display index lists
exactly the keys of the row store, and the display index has no duplicates —
provided the construction records have pairwise-distinct stringified
identifier values (the amendment forced by `C3_counterexample`). -/
theorem C3_index_consistency (rows : List RowData) (uniqueIdField : String)
    (ops : List GridOp) (hids : (rows.map (ctorId uniqueIdField)).Nodup) :
    EngineInv ((initGDM rows uniqueIdField).runOps ops) :=
  (invAux_runOps _ ops (invAux_init rows uniqueIdField hids)).2

/-- C3 counterexample: a construction input with a duplicated identifier value
puts the identifier into the display index twice, so the display index is not
duplicate-free as claimed. -/
theorem C3_counterexample :
    (initGDM [[("id", Value.str "1")], [("id", Value.str "1")]] "id").displayIndex
      = ["1", "1"] ∧
    ¬ (initGDM [[("id", Value.str "1")], [("id", Value.str "1")]] "id").displayIndex.Nodup :=
  ⟨by decide, by decide⟩

/-- Witness for C3 at a concrete construction input and operation sequence. -/
theorem C3_index_consistency_witness :
    ([demoRow1, demoRow2].map (ctorId "id")).Nodup ∧
    EngineInv ((initGDM [demoRow1, demoRow2] "id").runOps
      [GridOp.sortBy "amount" SortDirection.asc,
       GridOp.addFilter ⟨"amount", Value.num 6, FilterOp.gt⟩,
       GridOp.updateCell "2" "amount" (Value.str "100"),
       GridOp.deleteRow "2"]) :=
  ⟨by decide, C3_index_consistency _ _ _ (by decide)⟩

/-- C4: `addRow` of a record whose identifier is already a key of the row
store returns the duplicate-key failure (`null`) and leaves the whole engine
state unchanged. -/
theorem C4_addRow_duplicate (s : GDM) (row : RowData)
    (h : mapHas s.rowMap ((rowGet row s.idField).jsToString) = true) :
    s.addRow row = (s, Option.none) := by
  unfold GDM.addRow
  simp [h]

/-- Witness for C4: re-adding id `"1"` to the demo state fails and is a
no-op. -/
theorem C4_addRow_duplicate_witness :
    mapHas demoState.rowMap
      ((rowGet [("id", Value.str "1"), ("amount", Value.num 1)] demoState.idField).jsToString)
        = true ∧
    demoState.addRow [("id", Value.str "1"), ("amount", Value.num 1)]
      = (demoState, Option.none) :=
  ⟨by decide, C4_addRow_duplicate demoState _ (by decide)⟩

/-- C10: `updateCell` on an existing id never adds, removes or re-keys a row
store entry — even when the edited column is the identifier field — and the
row read back under the original id is the old record with the column set to
the new value. -/
theorem C10_updateCell_preserves_keys (s : GDM) (id column : String) (value : Value)
    (row : RowData) (k : String) (hrow : mapGet? s.rowMap id = some row) :
    mapHas (s.updateCell id column value).1.rowMap k = mapHas s.rowMap k ∧
    mapGet? (s.updateCell id column value).1.rowMap id
      = some (rowSet row column value) := by
  have hhas : mapHas s.rowMap id = true := by simp [mapHas, hrow]
  have hres : (s.updateCell id column value).1.rowMap
      = mapSet s.rowMap id (rowSet row column value) := by
    unfold GDM.updateCell
    rw [hrow]
    rw [applyCurrentFilters_rowMap, resortIfEdited_rowMap, refreshSortValue_rowMap,
      refreshSearchIdx_rowMap]
  rw [hres]
  refine ⟨?_, mapGet?_mapSet_self _ _ _⟩
  rw [mapHas_mapSet]
  by_cases hk : k = id
  · subst hk; simp [hhas]
  · simp [hk]

/-- Witness for C10 at the demo state, editing the identifier column itself. -/
theorem C10_updateCell_preserves_keys_witness :
    mapGet? demoState.rowMap "1" = some demoRow1 ∧
    (mapHas (demoState.updateCell "1" "id" (Value.str "9")).1.rowMap "9"
        = mapHas demoState.rowMap "9" ∧
      mapGet? (demoState.updateCell "1" "id" (Value.str "9")).1.rowMap "1"
        = some (rowSet demoRow1 "id" (Value.str "9"))) :=
  ⟨by decide,
    C10_updateCell_preserves_keys demoState "1" "id" (Value.str "9") demoRow1 "9" (by decide)⟩

theorem jsCmpLe_localeCompare (x y : String) :
    jsCmpLe (jsLocaleCompare x y) = true ↔ x ≤ y := by
  unfold jsLocaleCompare
  split_ifs with h1 h2
  · simp [jsCmpLe, h1.le]
  · simp [jsCmpLe, not_le.mpr h2]
  · simp [jsCmpLe, not_lt.mp h2]

theorem idLe_eq (s : GDM) (a b : String) :
    idLe s a b = jsCmpLe (jsLocaleCompare (strIdValue s a) (strIdValue s b)) := rfl

theorem idLe_iff (s : GDM) (a b : String) :
    idLe s a b = true ↔ strIdValue s a ≤ strIdValue s b := by
  rw [idLe_eq, jsCmpLe_localeCompare]

theorem idLe_trans (s : GDM) : ∀ a b c, idLe s a b → idLe s b c → idLe s a c := by
  intro a b c hab hbc
  rw [idLe_iff] at hab hbc ⊢
  exact le_trans hab hbc

theorem idLe_total (s : GDM) : ∀ a b, idLe s a b || idLe s b a := by
  intro a b
  rcases le_total (strIdValue s a) (strIdValue s b) with h | h
  · simp [(idLe_iff s a b).mpr h]
  · simp [(idLe_iff s b a).mpr h]

/-- C5: `sortBy(column, 'none')` permutes the display index into ascending
lexicographic order of the records' stringified identifier-field values,
whatever the prior order was. -/
theorem C5_sortBy_none_id_order (s : GDM) (column : String) :
    List.Perm (s.sortBy column SortDirection.none).displayIndex s.displayIndex ∧
    List.Pairwise (fun a b => strIdValue s a ≤ strIdValue s b)
      (s.sortBy column SortDirection.none).displayIndex := by
  have hdisp : (s.sortBy column SortDirection.none).displayIndex
      = s.displayIndex.mergeSort
          (idLe { s with currentSort := ⟨some column, SortDirection.none⟩ }) := by
    unfold GDM.sortBy
    simp only [reduceIte]
    rfl
  rw [hdisp]
  constructor
  · exact List.mergeSort_perm _ _
  · have hs : List.Pairwise
        (fun a b => idLe { s with currentSort := ⟨some column, SortDirection.none⟩ } a b = true)
        (s.displayIndex.mergeSort
          (idLe { s with currentSort := ⟨some column, SortDirection.none⟩ })) :=
      List.sorted_mergeSort (idLe_trans _) (idLe_total _) _
    exact hs.imp (fun h => (idLe_iff _ _ _).mp h)

theorem mapGet?_mem {α : Type} (m : List (String × α)) (k : String) (v : α)
    (h : mapGet? m k = some v) : (k, v) ∈ m := by
  induction m with
  | nil => simp [mapGet?] at h
  | cons p rest ih =>
    by_cases hp : p.1 = k
    · rw [mapGet?, if_pos hp] at h
      have hv : p.2 = v := by injection h
      have hpv : (k, v) = p := by rw [← hp, ← hv]
      rw [hpv]
      exact List.mem_cons_self p rest
    · rw [mapGet?, if_neg hp] at h
      exact List.mem_cons_of_mem _ (ih h)

theorem cache_getD_val (cache : List (String × JsNumber)) (x : String)
    (hnn : ∀ p ∈ cache, p.2 ≠ JsNumber.nan) :
    (mapGet? cache x).getD (JsNumber.val 0) = JsNumber.val (specSortKey cache x) := by
  unfold specSortKey
  cases hg : mapGet? cache x with
  | none => rfl
  | some v =>
    cases v with
    | nan => exact absurd rfl (hnn _ (mapGet?_mem cache x JsNumber.nan hg))
    | val n => rfl

theorem sortCompare_cached (s : GDM) (column : String) (d : SortDirection)
    (cache : List (String × JsNumber)) (a b : String)
    (hcache : mapGet? s.sortValues column = some cache) :
    sortCompare s column d a b =
      (if d = SortDirection.asc
        then jsSub ((mapGet? cache a).getD (JsNumber.val 0))
          ((mapGet? cache b).getD (JsNumber.val 0))
        else jsSub ((mapGet? cache b).getD (JsNumber.val 0))
          ((mapGet? cache a).getD (JsNumber.val 0))) := by
  unfold sortCompare
  rw [hcache]

theorem colLe_cached (s : GDM) (column : String) (d : SortDirection)
    (cache : List (String × JsNumber)) (a b : String)
    (hcache : mapGet? s.sortValues column = some cache)
    (hnn : ∀ p ∈ cache, p.2 ≠ JsNumber.nan) :
    colLe s column d a b =
      (if d = SortDirection.asc
        then decide (specSortKey cache a ≤ specSortKey cache b)
        else decide (specSortKey cache b ≤ specSortKey cache a)) := by
  unfold colLe
  rw [sortCompare_cached s column d cache a b hcache]
  rw [cache_getD_val cache a hnn, cache_getD_val cache b hnn]
  by_cases hd : d = SortDirection.asc <;>
    · simp only [hd, if_pos, if_neg, reduceIte, jsSub, jsCmpLe]
      rw [decide_eq_decide]
      omega

theorem colLe_cached_trans (s : GDM) (column : String) (d : SortDirection)
    (cache : List (String × JsNumber))
    (hcache : mapGet? s.sortValues column = some cache)
    (hnn : ∀ p ∈ cache, p.2 ≠ JsNumber.nan) :
    ∀ a b c, colLe s column d a b → colLe s column d b c → colLe s column d a c := by
  intro a b c hab hbc
  rw [colLe_cached s column d cache _ _ hcache hnn] at hab hbc ⊢
  by_cases hd : d = SortDirection.asc <;> simp only [hd, reduceIte] at hab hbc ⊢ <;>
    · rw [decide_eq_true_eq] at hab hbc ⊢
      omega

theorem colLe_cached_total (s : GDM) (column : String) (d : SortDirection)
    (cache : List (String × JsNumber))
    (hcache : mapGet? s.sortValues column = some cache)
    (hnn : ∀ p ∈ cache, p.2 ≠ JsNumber.nan) :
    ∀ a b, colLe s column d a b || colLe s column d b a := by
  intro a b
  rw [colLe_cached s column d cache _ _ hcache hnn,
    colLe_cached s column d cache _ _ hcache hnn]
  by_cases hd : d = SortDirection.asc <;> simp only [hd, reduceIte] <;>
    · rw [Bool.or_eq_true, decide_eq_true_eq, decide_eq_true_eq]
      omega

theorem sortBy_displayIndex (s : GDM) (column : String) (d : SortDirection)
    (hd : d ≠ SortDirection.none) :
    (s.sortBy column d).displayIndex = s.displayIndex.mergeSort (colLe s column d) := by
  unfold GDM.sortBy
  simp only [if_neg hd]
  rfl

theorem mergeSort_pair {α : Type} (le : α → α → Bool) (a b : α) :
    [a, b].mergeSort le = if le a b then [a, b] else [b, a] := by
  simp [List.mergeSort, List.merge]

/-- sortValues is untouched by `sortBy`. -/
theorem sortBy_sortValues (s : GDM) (c : String) (d : SortDirection) :
    (s.sortBy c d).sortValues = s.sortValues := by
  unfold GDM.sortBy
  split <;> rfl

/-- C8: on a column that has a sort-value cache (with numeric entries), the
`sortBy` comparator is exactly numeric comparison of the cached values with a
missing entry treated as 0, and the resulting display index is a permutation
of the old one ordered by those keys (ascending or descending). -/
theorem C8_cached_sort (s : GDM) (column : String) (cache : List (String × JsNumber))
    (a b : String)
    (hcache : mapGet? s.sortValues column = some cache)
    (hnn : ∀ p ∈ cache, p.2 ≠ JsNumber.nan) :
    (colLe s column SortDirection.asc a b
        = decide (specSortKey cache a ≤ specSortKey cache b)) ∧
    (colLe s column SortDirection.desc a b
        = decide (specSortKey cache b ≤ specSortKey cache a)) ∧
    (List.Perm (s.sortBy column SortDirection.asc).displayIndex s.displayIndex ∧
      List.Pairwise (fun x y => specSortKey cache x ≤ specSortKey cache y)
        (s.sortBy column SortDirection.asc).displayIndex) ∧
    (List.Perm (s.sortBy column SortDirection.desc).displayIndex s.displayIndex ∧
      List.Pairwise (fun x y => specSortKey cache y ≤ specSortKey cache x)
        (s.sortBy column SortDirection.desc).displayIndex) := by
  refine ⟨?_, ?_, ⟨?_, ?_⟩, ⟨?_, ?_⟩⟩
  · rw [colLe_cached s column _ cache a b hcache hnn]; rfl
  · rw [colLe_cached s column _ cache a b hcache hnn]; rfl
  · rw [sortBy_displayIndex s column _ (by decide)]
    exact List.mergeSort_perm _ _
  · rw [sortBy_displayIndex s column _ (by decide)]
    have hs := List.sorted_mergeSort
      (colLe_cached_trans s column SortDirection.asc cache hcache hnn)
      (colLe_cached_total s column SortDirection.asc cache hcache hnn) s.displayIndex
    refine hs.imp ?_
    intro x y hxy
    rw [colLe_cached s column _ cache x y hcache hnn] at hxy
    simpa using hxy
  · rw [sortBy_displayIndex s column _ (by decide)]
    exact List.mergeSort_perm _ _
  · rw [sortBy_displayIndex s column _ (by decide)]
    have hs := List.sorted_mergeSort
      (colLe_cached_trans s column SortDirection.desc cache hcache hnn)
      (colLe_cached_total s column SortDirection.desc cache hcache hnn) s.displayIndex
    refine hs.imp ?_
    intro x y hxy
    rw [colLe_cached s column _ cache x y hcache hnn] at hxy
    simpa using hxy

/-- Witness for C8 at a state where row `"3"` has no cached `amount`: its key
counts as 0. -/
theorem C8_cached_sort_witness :
    (mapGet? c8State.sortValues "amount" = some c8AmountCache ∧
      (∀ p ∈ c8AmountCache, p.2 ≠ JsNumber.nan)) ∧
    ((colLe c8State "amount" SortDirection.asc "3" "2"
        = decide (specSortKey c8AmountCache "3" ≤ specSortKey c8AmountCache "2")) ∧
      (colLe c8State "amount" SortDirection.desc "3" "2"
        = decide (specSortKey c8AmountCache "2" ≤ specSortKey c8AmountCache "3")) ∧
      (List.Perm (c8State.sortBy "amount" SortDirection.asc).displayIndex
          c8State.displayIndex ∧
        List.Pairwise (fun x y => specSortKey c8AmountCache x ≤ specSortKey c8AmountCache y)
          (c8State.sortBy "amount" SortDirection.asc).displayIndex) ∧
      (List.Perm (c8State.sortBy "amount" SortDirection.desc).displayIndex
          c8State.displayIndex ∧
        List.Pairwise (fun x y => specSortKey c8AmountCache y ≤ specSortKey c8AmountCache x)
          (c8State.sortBy "amount" SortDirection.desc).displayIndex)) :=
  ⟨⟨by decide, by decide⟩,
    C8_cached_sort c8State "amount" c8AmountCache "3" "2" (by decide) (by decide)⟩

/-- C6 (amended): for a non-`none` sort on a column backed by a sort-value
cache with numeric entries, rows with equal comparison keys keep the relative
order they had in the display index immediately before this sort; insertion
order is the tiebreak only when the display index still is in insertion
order. -/
theorem C6_sort_stable_prior_order (s : GDM) (column : String) (d : SortDirection)
    (cache : List (String × JsNumber)) (a b : String)
    (hd : d ≠ SortDirection.none)
    (hcache : mapGet? s.sortValues column = some cache)
    (hnn : ∀ p ∈ cache, p.2 ≠ JsNumber.nan)
    (htie : specSortKey cache a = specSortKey cache b)
    (hsub : List.Sublist [a, b] s.displayIndex) :
    List.Sublist [a, b] (s.sortBy column d).displayIndex := by
  rw [sortBy_displayIndex s column d hd]
  refine List.pair_sublist_mergeSort
    (colLe_cached_trans s column d cache hcache hnn)
    (colLe_cached_total s column d cache hcache hnn) ?_ hsub
  rw [colLe_cached s column d cache a b hcache hnn]
  by_cases hdir : d = SortDirection.asc <;> simp [hdir, htie]

/-- C6 counterexample: rows `"1","2"` are inserted in that order and tie on
`price`, yet after an earlier `sortBy('amount','desc')` the tied sort
`sortBy('price','asc')` leaves them as `["2","1"]` — the stable sort breaks
ties by the pre-sort display order, not by insertion order. -/
theorem C6_counterexample :
    c6Start.displayIndex = ["1", "2"] ∧
    specSortKey ((mapGet? c6AfterAmount.sortValues "price").getD []) "1"
      = specSortKey ((mapGet? c6AfterAmount.sortValues "price").getD []) "2" ∧
    c6AfterPrice.displayIndex = ["2", "1"] := by
  have h0 : c6Start.displayIndex = ["1", "2"] := by decide
  have h1 : c6AfterAmount.displayIndex = ["2", "1"] := by
    show (c6Start.sortBy "amount" SortDirection.desc).displayIndex = _
    rw [sortBy_displayIndex _ _ _ (by decide), h0, mergeSort_pair]
    decide
  refine ⟨h0, by decide, ?_⟩
  show (c6AfterAmount.sortBy "price" SortDirection.asc).displayIndex = _
  rw [sortBy_displayIndex _ _ _ (by decide), h1, mergeSort_pair]
  decide

/-- Witness for the amended C6 at the scenario's initial state. -/
theorem C6_sort_stable_prior_order_witness :
    (mapGet? c6Start.sortValues "price" = some c6PriceCache ∧
      (∀ p ∈ c6PriceCache, p.2 ≠ JsNumber.nan) ∧
      specSortKey c6PriceCache "1" = specSortKey c6PriceCache "2" ∧
      List.Sublist ["1", "2"] c6Start.displayIndex) ∧
    List.Sublist ["1", "2"] (c6Start.sortBy "price" SortDirection.asc).displayIndex :=
  ⟨⟨by decide, by decide, by decide, by decide⟩,
    C6_sort_stable_prior_order c6Start "price" SortDirection.asc c6PriceCache "1" "2"
      (by decide) (by decide) (by decide) (by decide) (by decide)⟩

theorem applyCurrentFilters_sortValues (s : GDM) :
    (applyCurrentFilters s).sortValues = s.sortValues := rfl

theorem resortIfEdited_sortValues (s : GDM) (column : String) :
    (resortIfEdited s column).sortValues = s.sortValues := by
  unfold resortIfEdited
  split
  · rw [sortBy_sortValues]
  · rfl

theorem refreshSearchIdx_sortValues (s : GDM) (id column : String) (row : RowData) :
    (refreshSearchIdx s id column row).sortValues = s.sortValues := by
  unfold refreshSearchIdx; split <;> rfl

theorem refreshSortValue_nan (s : GDM) (id column : String) (value : Value)
    (hdate : column ∉ DATE_COLUMNS) (hnan : value.toNumber = JsNumber.nan) :
    refreshSortValue s id column value = s := by
  unfold refreshSortValue
  by_cases h1 : mapHas s.sortValues column
  · rw [if_pos h1]
    rw [if_neg (by simp [hdate])]
    by_cases h2 : column ∈ NUMERIC_COLUMNS ∧ value ≠ Value.null ∧ value ≠ Value.undef
    · rw [if_pos h2, hnan]
    · rw [if_neg h2]
  · rw [if_neg h1]

/-- C7 (amended): for a numeric column, `updateCell` with a value whose
`Number` coercion is NaN succeeds and leaves the whole sort-value cache — in
particular the entry for that id and column — unchanged.  (For date columns
the claim fails: see `C7_counterexample`.) -/
theorem C7_numeric_unparsable_skipped (s : GDM) (id column : String) (value : Value)
    (row : RowData)
    (hrow : mapGet? s.rowMap id = some row)
    (hcol : column ∈ NUMERIC_COLUMNS)
    (hnan : value.toNumber = JsNumber.nan) :
    (s.updateCell id column value).2.isSome = true ∧
    (s.updateCell id column value).1.sortValues = s.sortValues ∧
    mapGet? ((mapGet? (s.updateCell id column value).1.sortValues column).getD []) id
      = mapGet? ((mapGet? s.sortValues column).getD []) id := by
  have hdate : column ∉ DATE_COLUMNS := by
    simp only [NUMERIC_COLUMNS, List.mem_cons, List.not_mem_nil, or_false] at hcol
    rcases hcol with h | h | h | h <;> subst h <;> decide
  have hok : (s.updateCell id column value).2.isSome = true := by
    unfold GDM.updateCell
    rw [hrow]
    rfl
  have hsv : (s.updateCell id column value).1.sortValues = s.sortValues := by
    unfold GDM.updateCell
    rw [hrow]
    dsimp only
    rw [applyCurrentFilters_sortValues, resortIfEdited_sortValues,
      refreshSortValue_nan _ _ _ _ hdate hnan, refreshSearchIdx_sortValues]
  exact ⟨hok, hsv, by rw [hsv]⟩

/-- C7 counterexample: a date column receiving an unparsable truthy value does
NOT keep its prior cached key — `new Date('garbage').getTime()` is NaN and the
cache entry is overwritten with it (only the numeric-column path skips the
update). -/
theorem C7_counterexample :
    mapGet? ((mapGet? c7State.sortValues "date").getD []) "1"
      = some (JsNumber.val 20200101) ∧
    c7After.2.isSome = true ∧
    mapGet? ((mapGet? c7After.1.sortValues "date").getD []) "1" = some JsNumber.nan :=
  ⟨by decide, by decide, by decide⟩

/-- Witness for the amended C7: updating `amount` of the demo state with the
non-numeric string `"abc"` succeeds and keeps the cache. -/
theorem C7_numeric_unparsable_skipped_witness :
    (mapGet? demoState.rowMap "1" = some demoRow1 ∧
      "amount" ∈ NUMERIC_COLUMNS ∧
      (Value.str "abc").toNumber = JsNumber.nan) ∧
    ((demoState.updateCell "1" "amount" (Value.str "abc")).2.isSome = true ∧
      (demoState.updateCell "1" "amount" (Value.str "abc")).1.sortValues
        = demoState.sortValues ∧
      mapGet? ((mapGet? (demoState.updateCell "1" "amount" (Value.str "abc")).1.sortValues
          "amount").getD []) "1"
        = mapGet? ((mapGet? demoState.sortValues "amount").getD []) "1") :=
  ⟨⟨by decide, by decide, by decide⟩,
    C7_numeric_unparsable_skipped demoState "1" "amount" (Value.str "abc") demoRow1
      (by decide) (by decide) (by decide)⟩

/-- C9 counterexample: with an empty filtered set the claimed clamping
interval `[0, ceil(0/10)-1] = [0,-1]` is empty; `goToPage` stores 0, which
lies outside it, and `nextPage` even steps the current page to -1. -/
theorem C9_counterexample :
    jsMaxPage 0 10 = -1 ∧
    goToPage 0 10 5 = 0 ∧
    ¬ goToPage 0 10 5 ≤ jsMaxPage 0 10 ∧
    nextPage 0 10 0 = -1 := by decide

/-- C9 (amended): for a positive page size and a nonempty filtered set (so the
interval `[0, ceil(filteredCount/pageSize)-1]` is nonempty), `goToPage` clamps
any requested page into the interval, `nextPage`/`prevPage` keep a current
page inside it, and `setPageSize` re-clamps the current page into
`[0, max 0 (ceil(filteredCount/size)-1)]` for the new size. -/
theorem C9_page_bounds (filteredCount pageSize size : Nat) (page current : Int)
    (hps : 1 ≤ pageSize) (hfc : 1 ≤ filteredCount)
    (hcur : 0 ≤ current ∧ current ≤ jsMaxPage filteredCount pageSize) :
    (0 ≤ goToPage filteredCount pageSize page ∧
      goToPage filteredCount pageSize page ≤ jsMaxPage filteredCount pageSize) ∧
    (0 ≤ nextPage filteredCount pageSize current ∧
      nextPage filteredCount pageSize current ≤ jsMaxPage filteredCount pageSize) ∧
    (0 ≤ prevPage current ∧ prevPage current ≤ jsMaxPage filteredCount pageSize) ∧
    (0 ≤ handleSetPageSize filteredCount size current ∧
      handleSetPageSize filteredCount size current ≤ max 0 (jsMaxPage filteredCount size)) := by
  have hmax : 0 ≤ jsMaxPage filteredCount pageSize := by
    unfold jsMaxPage
    have h1 : 1 ≤ (filteredCount + pageSize - 1) / pageSize :=
      (Nat.one_le_div_iff (by omega)).mpr (by omega)
    omega
  obtain ⟨hc0, hc1⟩ := hcur
  refine ⟨⟨?_, ?_⟩, ⟨?_, ?_⟩, ⟨?_, ?_⟩, ?_⟩
  · unfold goToPage; omega
  · unfold goToPage; omega
  · unfold nextPage; omega
  · unfold nextPage; omega
  · unfold prevPage; omega
  · unfold prevPage; omega
  · unfold handleSetPageSize
    split <;> omega

/-- Witness for the amended C9 at concrete pagination parameters. -/
theorem C9_page_bounds_witness :
    (1 ≤ 10 ∧ 1 ≤ 25 ∧ (0 ≤ (1 : Int) ∧ (1 : Int) ≤ jsMaxPage 25 10)) ∧
    ((0 ≤ goToPage 25 10 7 ∧ goToPage 25 10 7 ≤ jsMaxPage 25 10) ∧
      (0 ≤ nextPage 25 10 1 ∧ nextPage 25 10 1 ≤ jsMaxPage 25 10) ∧
      (0 ≤ prevPage 1 ∧ prevPage 1 ≤ jsMaxPage 25 10) ∧
      (0 ≤ handleSetPageSize 25 3 1 ∧
        handleSetPageSize 25 3 1 ≤ max 0 (jsMaxPage 25 3))) :=
  ⟨⟨by decide, by decide, by decide, by decide⟩,
    C9_page_bounds 25 10 3 7 1 (by decide) (by decide) ⟨by decide, by decide⟩⟩

/-- C1 at the failing input: after `filterBySearch('banana')` narrows the
filtered index to `["2"]`, the next filter-set change rebuilds the filtered
index from the column filters alone — the engine stores no search query — so
the result `["1"]` contains a row that does not match the still-active search
query, contradicting the claimed invariant (and the source's own comment
"Apply text search and then any other filters"). -/
theorem C1_search_dropped_on_refilter :
    c1Searched.filteredIndex = ["2"] ∧
    c1AfterFilter.filteredIndex = ["1"] ∧
    jsIncludes ((mapGet? c1AfterFilter.searchIndex "1").getD "") (jsToLowerCase "banana")
      = false :=
  ⟨by decide, by decide, by decide⟩

/-- C2 at the failing input: with the `amount > 6` filter active (filtered
index `["1"]`), `filterBySearch('banana')` sets the filtered index to `["2"]`
purely from the search-key cache; id `"2"` fails the still-active column
filter, so the claimed conjunction with the filter predicates does not hold
(the source's comment announces "Apply text search and then any other filters"
but no filter is applied). -/
theorem C2_filters_dropped_on_search :
    c2Filtered.filteredIndex = ["1"] ∧
    c2Searched.activeFilters = [⟨"amount", Value.num 6, FilterOp.gt⟩] ∧
    c2Searched.filteredIndex = ["2"] ∧
    filterTest c2Searched.rowMap ⟨"amount", Value.num 6, FilterOp.gt⟩ "2" = false :=
  ⟨by decide, by decide, by decide, by decide⟩
